import Mathlib

/-!
# Verification of the multi-tenant funnel/access core

Shallow embedding of the access-ledger, funnel state machine, conversion
intake and broadcast-target logic of the repository (files
`app/bots/child/bot_instance.py`, `app/postback/api.py`, `app/models.py`),
with theorems settling the frozen claims about it.

Conventions of the embedding:
* chat user ids are `Int` (Python ints; `int(click_id)` may be negative),
  tenant ids are `Nat`;
* monetary amounts are modelled as `Nat` (the claims only use addition);
* the SQL store is a `Store` structure of lists of rows; the database
  uniqueness constraints (`uq_user_access_tenant_user`,
  `uq_user_lang_tenant_user`) appear as the `Store.wf` predicate;
* `scalar_one_or_none` + mutate-and-commit is `List.find?` plus
  `updateFirst` (update the first matching row);
* every async handler becomes a pure function returning its outputs and
  the successor store.
-/

namespace PocketSaas

/-- A funnel screen that may be sent to a user. -/
inductive Screen where
  | subscribe
  | register
  | deposit
  | accessOpen
  | configError
  deriving DecidableEq, Repr

/-- Row of the `tenants` table (fields relevant to the core). -/
structure Tenant where
  id : Nat
  owner_telegram_id : Int
  gate_channel_id : Option Int := none
  gate_channel_url : Option String := none
  ref_link : Option String := none
  deposit_link : Option String := none
  support_url : Option String := none
  pb_secret : Option String := none
  check_subscription : Bool := true
  check_deposit : Bool := true
  is_active : Bool := true
  deriving DecidableEq, Repr

/-- Row of the `user_accesses` table. -/
structure UserAccess where
  tenant_id : Nat
  user_id : Int
  is_registered : Bool := false
  has_deposit : Bool := false
  click_id : Option String := none
  trader_id : Option String := none
  total_deposits : Nat := 0
  username : Option String := none
  deriving DecidableEq, Repr

/-- Row of the `user_langs` table. -/
structure UserLang where
  tenant_id : Nat
  user_id : Int
  lang : String
  deriving DecidableEq, Repr

/-- Row of the append-only `events` table. -/
structure Event where
  tenant_id : Nat
  user_id : Option Int
  click_id : String
  trader_id : Option String
  kind : String
  amount : Option Nat
  deriving DecidableEq, Repr

/-- The durable store plus the process-local "welcome shown" marker set
(`access_welcome_shown: set[tuple[int, int]]`). -/
structure Store where
  tenants : List Tenant
  accesses : List UserAccess
  langs : List UserLang
  events : List Event
  welcomeShown : List (Nat × Int)
  deriving DecidableEq, Repr

/-- The database uniqueness constraints: at most one `UserAccess` row and at
most one `UserLang` row per (tenant, user) key. -/
def Store.wf (s : Store) : Prop :=
  s.accesses.Pairwise (fun a b => (a.tenant_id, a.user_id) ≠ (b.tenant_id, b.user_id)) ∧
  s.langs.Pairwise (fun a b => (a.tenant_id, a.user_id) ≠ (b.tenant_id, b.user_id))

instance (s : Store) : Decidable s.wf := by
  unfold Store.wf; infer_instance

/-- Update the first element satisfying `p` (models selecting one row with
`scalar_one_or_none` and committing a mutation of it; leaves the list
unchanged when no row matches). -/
def updateFirst (p : α → Bool) (f : α → α) : List α → List α
  | [] => []
  | x :: xs => if p x then f x :: xs else x :: updateFirst p f xs

/-- Predicate selecting the `UserAccess` row of a (tenant, user) pair. -/
def accessMatches (tid : Nat) (uid : Int) (ua : UserAccess) : Bool :=
  ua.tenant_id == tid && ua.user_id == uid

/-- `select(UserAccess).where(tenant_id == tid, user_id == uid)` +
`scalar_one_or_none`. -/
def findAccess (s : Store) (tid : Nat) (uid : Int) : Option UserAccess :=
  s.accesses.find? (accessMatches tid uid)

/-- `select(Tenant).where(Tenant.id == tid)` + `scalar_one_or_none`. -/
def findTenant (s : Store) (tid : Nat) : Option Tenant :=
  s.tenants.find? (fun t => t.id == tid)

/-- Python truthiness of an optional string (`if username:` —
`None` and `""` are falsy). -/
def strTruthy : Option String → Bool
  | none => false
  | some u => u ≠ ""

/-- The username filter at the top of `_get_or_create_access`: a truthy
username ending in a case-insensitive "bot" suffix is discarded. -/
def filterBotUsername (username : Option String) : Option String :=
  match username with
  | some u => if u ≠ "" && u.toLower.endsWith "bot" then none else some u
  | none => username

/-- The reconciliation applied to an existing row by `_get_or_create_access`
(both in the found branch and in the `IntegrityError` recovery branch):
refresh `username` when a truthy new one differs, backfill a `None`
`click_id` with the stringified user id.  Flags are not touched. -/
def reconcileAccessRow (uid : Int) (username : Option String) (ua : UserAccess) :
    UserAccess :=
  let ua1 :=
    if strTruthy username && ua.username ≠ username then
      { ua with username := username }
    else ua
  if ua1.click_id = none then { ua1 with click_id := some (toString uid) } else ua1

/-- `_get_or_create_access` on a quiescent store: the select and the commit
see the same state, so the unique-constraint conflict cannot fire.  (The
racy commit is modelled separately by `getOrCreateAccessConflict`.) -/
def getOrCreateAccess (s : Store) (tid : Nat) (uid : Int)
    (username : Option String) : UserAccess × Store :=
  let uname := filterBotUsername username
  match findAccess s tid uid with
  | some ua =>
      let ua' := reconcileAccessRow uid uname ua
      let acc := updateFirst (accessMatches tid uid) (reconcileAccessRow uid uname) s.accesses
      (ua', { s with accesses := acc })
  | none =>
      let nua : UserAccess :=
        { tenant_id := tid, user_id := uid, username := uname,
          click_id := some (toString uid) }
      (nua, { s with accesses := s.accesses ++ [nua] })

/-- The `IntegrityError` recovery path of `_get_or_create_access`: the
insert's commit hits the uniqueness conflict because the database (state
`sDb`) already holds a row for the key; the session rolls back, re-reads,
reconciles and returns the existing row.  `none` models the re-raise when
even the re-read finds nothing. -/
def getOrCreateAccessConflict (sDb : Store) (tid : Nat) (uid : Int)
    (username : Option String) : Option (UserAccess × Store) :=
  let uname := filterBotUsername username
  match findAccess sDb tid uid with
  | some ua =>
      let ua' := reconcileAccessRow uid uname ua
      let acc := updateFirst (accessMatches tid uid) (reconcileAccessRow uid uname) sDb.accesses
      some (ua', { sDb with accesses := acc })
  | none => none

/-- Is there a `reg` event for the pair?  (`_get_access_flags_from_events`
counts rows with `Event.user_id == user_id ∧ kind == "reg"`; the count is
positive iff such an event exists.) -/
def hasRegEvent (s : Store) (tid : Nat) (uid : Int) : Bool :=
  s.events.any (fun e =>
    e.tenant_id == tid && e.user_id == some uid && e.kind == "reg")

/-- Is there an `ftd` or `rd` event for the pair? -/
def hasDepEvent (s : Store) (tid : Nat) (uid : Int) : Bool :=
  s.events.any (fun e =>
    e.tenant_id == tid && e.user_id == some uid &&
      (e.kind == "ftd" || e.kind == "rd"))

/-- `_get_access_flags_from_events`. -/
def getAccessFlagsFromEvents (s : Store) (tid : Nat) (uid : Int) : Bool × Bool :=
  (hasRegEvent s tid uid, hasDepEvent s tid uid)

/-- `_get_effective_access`: get-or-create the row, OR the stored flags with
the event-derived flags, and when the result differs from the stored flags
write it back (self-healing reconciliation).  Returns the pre-write row and
the two effective flags, as the Python function does. -/
def getEffectiveAccess (s : Store) (tid : Nat) (uid : Int)
    (username : Option String) : (UserAccess × Bool × Bool) × Store :=
  let r := getOrCreateAccess s tid uid username
  let ua := r.1
  let s1 := r.2
  let flagsE := getAccessFlagsFromEvents s1 tid uid
  let isReg := ua.is_registered || flagsE.1
  let hasDep := ua.has_deposit || flagsE.2
  let acc := updateFirst (accessMatches tid uid)
    (fun r => { r with is_registered := isReg, has_deposit := hasDep }) s1.accesses
  let s2 :=
    if isReg ≠ ua.is_registered ∨ hasDep ≠ ua.has_deposit then
      { s1 with accesses := acc }
    else s1
  ((ua, isReg, hasDep), s2)

/-- Effective registration as a pure predicate over a store: stored flag
ORed with the presence of a `reg` event (false when no row exists, as a
freshly created row carries false flags). -/
def effRegistered (s : Store) (tid : Nat) (uid : Int) : Bool :=
  (match findAccess s tid uid with
   | some ua => ua.is_registered
   | none => false) || hasRegEvent s tid uid

/-- Effective deposit state, analogously. -/
def effDeposited (s : Store) (tid : Nat) (uid : Int) : Bool :=
  (match findAccess s tid uid with
   | some ua => ua.has_deposit
   | none => false) || hasDepEvent s tid uid

/-- Outcome of `bot.get_chat_member` as seen by `_check_subscription`:
either a member status string, or an exception from the transport. -/
inductive MembershipLookup where
  | ok (status : String)
  | err
  deriving DecidableEq, Repr

/-- Python truthiness of the optional integer `tenant.gate_channel_id`
(`if not tenant.gate_channel_id:` — `None` and `0` are falsy). -/
def intFalsy : Option Int → Bool
  | none => true
  | some v => v == 0

/-- `_check_subscription`: checking disabled or no gating channel configured
is "allow"; otherwise the member status must be one of the accepted ones,
and an exception from the lookup yields `False`. -/
def checkSubscription (t : Tenant) (lookup : MembershipLookup) : Bool :=
  if !t.check_subscription then true
  else if intFalsy t.gate_channel_id then true
  else
    match lookup with
    | .ok st => ["member", "administrator", "creator", "owner"].contains st
    | .err => false

/-- `_handle_signal_flow` ("get signal"): effective access is computed
first, then subscription gate, registration gate, deposit gate, and finally
the one-time "access granted" screen guarded by the in-memory marker set.
Returns the list of screens sent during the run (at most one) and the
successor state. -/
def handleSignalFlow (s : Store) (tid : Nat) (uid : Int)
    (username : Option String) (lookup : MembershipLookup) :
    List Screen × Store :=
  match findTenant s tid with
  | none => ([Screen.configError], s)
  | some tenant =>
    let r := getEffectiveAccess s tid uid username
    let isReg := r.1.2.1
    let hasDep := r.1.2.2
    let s1 := r.2
    if tenant.check_subscription && !checkSubscription tenant lookup then
      ([Screen.subscribe], s1)
    else if !isReg then
      ([Screen.register], s1)
    else if tenant.check_deposit && !hasDep then
      ([Screen.deposit], s1)
    else if (tid, uid) ∉ s1.welcomeShown then
      ([Screen.accessOpen], { s1 with welcomeShown := (tid, uid) :: s1.welcomeShown })
    else
      ([], s1)

/-- `_admin_toggle_user_flag`: flip `is_registered` (`flag = "reg"`) or
`has_deposit` (`flag = "dep"`) on the pair's row; `false` when the row or
the flag name is unknown. -/
def adminToggleUserFlag (s : Store) (tid : Nat) (uid : Int) (flag : String) :
    Bool × Store :=
  match findAccess s tid uid with
  | none => (false, s)
  | some _ =>
    if flag == "reg" then
      let acc := updateFirst (accessMatches tid uid)
        (fun r => { r with is_registered := !r.is_registered }) s.accesses
      (true, { s with accesses := acc })
    else if flag == "dep" then
      let acc := updateFirst (accessMatches tid uid)
        (fun r => { r with has_deposit := !r.has_deposit }) s.accesses
      (true, { s with accesses := acc })
    else (false, s)

/-- `_admin_delete_user_record`: delete the pair's `UserAccess`, `UserLang`
and `Event` rows and drop the in-memory welcome marker. -/
def adminDeleteUserRecord (s : Store) (tid : Nat) (uid : Int) : Store :=
  { s with
    accesses := s.accesses.filter (fun ua => !(ua.tenant_id == tid && ua.user_id == uid)),
    langs := s.langs.filter (fun ul => !(ul.tenant_id == tid && ul.user_id == uid)),
    events := s.events.filter (fun e => !(e.tenant_id == tid && e.user_id == some uid)),
    welcomeShown := s.welcomeShown.filter (fun k => k ≠ (tid, uid)) }

/-- `_admin_collect_broadcast_targets`: user ids of the tenant's rows,
filtered by the segment (stored flags for `reg`/`dep`; a join with
`UserLang` for `lang`). -/
def adminCollectBroadcastTargets (s : Store) (tid : Nat) (segment : String)
    (langCode : Option String) : List Int :=
  if segment == "all" || segment == "sub" then
    (s.accesses.filter (fun ua => ua.tenant_id == tid)).map (·.user_id)
  else if segment == "reg" then
    (s.accesses.filter (fun ua => ua.tenant_id == tid && ua.is_registered)).map (·.user_id)
  else if segment == "dep" then
    (s.accesses.filter (fun ua => ua.tenant_id == tid && ua.has_deposit)).map (·.user_id)
  else if segment == "lang" && strTruthy langCode then
    (s.accesses.filter (fun ua => ua.tenant_id == tid &&
      s.langs.any (fun ul => ul.tenant_id == ua.tenant_id &&
        ul.user_id == ua.user_id && some ul.lang == langCode))).map (·.user_id)
  else
    (s.accesses.filter (fun ua => ua.tenant_id == tid)).map (·.user_id)

/-- `_get_tenant_by_code`: first a tenant whose `pb_secret` equals the code,
else the `tn{id}` fallback short code. -/
def getTenantByCode (s : Store) (code : String) : Option Tenant :=
  match s.tenants.find? (fun t => t.pb_secret == some code) with
  | some t => some t
  | none =>
    let rest := code.drop 2
    if code.startsWith "tn" && rest ≠ "" && rest.all Char.isDigit then
      match rest.toNat? with
      | some tid => s.tenants.find? (fun t => t.id == tid)
      | none => none
    else none

/-- Digit accumulator for `pyToInt?` (structural recursion, so concrete
runs reduce inside the kernel). -/
def digitsToNat : List Char → Nat → Option Nat
  | [], acc => some acc
  | c :: cs, acc =>
    if c.isDigit then digitsToNat cs (10 * acc + (c.toNat - 48)) else none

/-- Models the `int(click_id)` / `ValueError` attempt: an optional minus
sign followed by one or more decimal digits parses, anything else is
`none`. -/
def pyToInt? (s : String) : Option Int :=
  match s.data with
  | [] => none
  | '-' :: rest =>
    match rest with
    | [] => none
    | _ => (digitsToNat rest 0).map (fun n => -(n : Int))
  | l => (digitsToNat l 0).map (fun n => (n : Int))

/-- `_get_or_create_user_access_for_click`: resolve the click to a row by
numeric user id, then by literal `click_id`; create a row when only the
numeric id is available; refresh `click_id`/`trader_id` on a found row.
`none` (with the store unchanged) when nothing resolves. -/
def getOrCreateUserAccessForClick (s : Store) (t : Tenant) (cid : String)
    (trid : Option String) : Option UserAccess × Store :=
  let tg? := pyToInt? cid
  let upd := fun (r : UserAccess) =>
    { r with click_id := some cid,
             trader_id := if strTruthy trid then trid else r.trader_id }
  let byUser : Option UserAccess :=
    match tg? with
    | some tg => findAccess s t.id tg
    | none => none
  match byUser with
  | some ua =>
      let acc := updateFirst (accessMatches t.id ua.user_id) upd s.accesses
      (some (upd ua), { s with accesses := acc })
  | none =>
    match s.accesses.find? (fun ua => ua.tenant_id == t.id && ua.click_id == some cid) with
    | some ua =>
        let acc := updateFirst
          (fun r => r.tenant_id == t.id && r.click_id == some cid) upd s.accesses
        (some (upd ua), { s with accesses := acc })
    | none =>
      match tg? with
      | some tg =>
          let nua : UserAccess :=
            { tenant_id := t.id, user_id := tg, click_id := some cid,
              trader_id := trid }
          (some nua, { s with accesses := s.accesses ++ [nua] })
      | none => (none, s)

/-- Result of one postback handler: the returned status body and the screen
(if any) pushed to the resolved user. -/
structure PBResult where
  okStatus : Bool
  sent : Option Screen
  deriving DecidableEq, Repr

/-- `postback_reg` (`/pb/{code}/reg`): resolve tenant and user, set
`is_registered`/`trader_id`/`click_id` on the row, append a `reg` event,
then send the deposit screen or — were `deposit_required` ever false — the
access screen.  `getattr(tenant, "deposit_required", True)` always yields
`True` because the `Tenant` model has no `deposit_required` attribute. -/
def postbackReg (s : Store) (code cid trid : String) : PBResult × Store :=
  match getTenantByCode s code with
  | none => ({ okStatus := false, sent := none }, s)
  | some t =>
    let res := getOrCreateUserAccessForClick s t cid (some trid)
    let s1 := res.2
    match res.1 with
    | none => ({ okStatus := true, sent := none }, s1)
    | some ua =>
      let acc := updateFirst (accessMatches t.id ua.user_id)
        (fun r => { r with is_registered := true, trader_id := some trid,
                           click_id := some cid }) s1.accesses
      let ev : Event :=
        { tenant_id := t.id, user_id := some ua.user_id, click_id := cid,
          trader_id := some trid, kind := "reg", amount := none }
      let s2 := { s1 with accesses := acc, events := s1.events ++ [ev] }
      let depositRequired := true
      let screen := if depositRequired then Screen.deposit else Screen.accessOpen
      ({ okStatus := true, sent := some screen }, s2)

/-- `postback_ftd` (`/pb/{code}/ftd`): set `has_deposit`, refresh ids, add
the amount to `total_deposits`, append an `ftd` event, send the access
screen. -/
def postbackFtd (s : Store) (code cid trid : String) (sumdep : Nat) :
    PBResult × Store :=
  match getTenantByCode s code with
  | none => ({ okStatus := false, sent := none }, s)
  | some t =>
    let res := getOrCreateUserAccessForClick s t cid (some trid)
    let s1 := res.2
    match res.1 with
    | none => ({ okStatus := true, sent := none }, s1)
    | some ua =>
      let acc := updateFirst (accessMatches t.id ua.user_id)
        (fun r => { r with has_deposit := true, trader_id := some trid,
                           click_id := some cid,
                           total_deposits := r.total_deposits + sumdep }) s1.accesses
      let ev : Event :=
        { tenant_id := t.id, user_id := some ua.user_id, click_id := cid,
          trader_id := some trid, kind := "ftd", amount := some sumdep }
      let s2 := { s1 with accesses := acc, events := s1.events ++ [ev] }
      ({ okStatus := true, sent := some Screen.accessOpen }, s2)

/-- `postback_rd` (`/pb/{code}/rd`): refresh ids and add the amount to
`total_deposits` — the handler does *not* set `has_deposit` — append an
`rd` event, send the access screen. -/
def postbackRd (s : Store) (code cid trid : String) (sumdep : Nat) :
    PBResult × Store :=
  match getTenantByCode s code with
  | none => ({ okStatus := false, sent := none }, s)
  | some t =>
    let res := getOrCreateUserAccessForClick s t cid (some trid)
    let s1 := res.2
    match res.1 with
    | none => ({ okStatus := true, sent := none }, s1)
    | some ua =>
      let acc := updateFirst (accessMatches t.id ua.user_id)
        (fun r => { r with trader_id := some trid, click_id := some cid,
                           total_deposits := r.total_deposits + sumdep }) s1.accesses
      let ev : Event :=
        { tenant_id := t.id, user_id := some ua.user_id, click_id := cid,
          trader_id := some trid, kind := "rd", amount := some sumdep }
      let s2 := { s1 with accesses := acc, events := s1.events ++ [ev] }
      ({ okStatus := true, sent := some Screen.accessOpen }, s2)

/-! ## Concrete fixtures used by witnesses and counterexamples -/

/-- A tenant with both gates enabled and postback secret "sek". -/
def tenantA : Tenant :=
  { id := 1, owner_telegram_id := 99, pb_secret := some "sek" }

/-- A tenant with subscription checking enabled and a configured gating
channel. -/
def tenantGate : Tenant :=
  { id := 1, owner_telegram_id := 99, gate_channel_id := some (-100),
    pb_secret := some "sek" }

/-- A tenant with deposit checking disabled. -/
def tenantNoDep : Tenant :=
  { id := 1, owner_telegram_id := 99, pb_secret := some "sek",
    check_deposit := false }

/-- A fresh access row for user 7 of tenant 1 (no flags set). -/
def rowFresh : UserAccess := { tenant_id := 1, user_id := 7 }

/-- An access row for user 7 of tenant 1 with both flags set. -/
def rowFull : UserAccess :=
  { tenant_id := 1, user_id := 7, is_registered := true, has_deposit := true,
    click_id := some "7" }

/-- A `reg` event for user 7 of tenant 1. -/
def regEvent7 : Event :=
  { tenant_id := 1, user_id := some 7, click_id := "7", trader_id := none,
    kind := "reg", amount := none }

/-- An `rd` event for user 7 of tenant 1. -/
def rdEvent7 : Event :=
  { tenant_id := 1, user_id := some 7, click_id := "7", trader_id := none,
    kind := "rd", amount := some 30 }

/-- Store: tenant 1, unflagged row for user 7, one `reg` event. -/
def storeRegEvent : Store :=
  { tenants := [tenantA], accesses := [rowFresh], langs := [],
    events := [regEvent7], welcomeShown := [] }

/-- Store: tenant 1, fully flagged row for user 7, `reg` and `rd` events. -/
def storeFull : Store :=
  { tenants := [tenantA], accesses := [rowFull], langs := [],
    events := [regEvent7, rdEvent7], welcomeShown := [] }

/-- Store: gating tenant, no rows, no events. -/
def storeGate : Store :=
  { tenants := [tenantGate], accesses := [], langs := [],
    events := [], welcomeShown := [] }

/-- Store: tenant 1 with an unflagged row for user 7 and no events. -/
def storeFresh : Store :=
  { tenants := [tenantA], accesses := [rowFresh], langs := [],
    events := [], welcomeShown := [] }

/-- Store: deposit-check-disabled tenant with an unflagged row for user 7. -/
def storeNoDep : Store :=
  { tenants := [tenantNoDep], accesses := [rowFresh], langs := [],
    events := [], welcomeShown := [] }

/-- A second access row (user 8, registered) for tenant 1. -/
def rowReg8 : UserAccess :=
  { tenant_id := 1, user_id := 8, is_registered := true, click_id := some "8" }

/-- A language row: user 7 of tenant 1 speaks "de". -/
def langRow7 : UserLang := { tenant_id := 1, user_id := 7, lang := "de" }

/-- Store for broadcast-target checks: two users of tenant 1, one language
row. -/
def storeBroadcast : Store :=
  { tenants := [tenantA], accesses := [rowFresh, rowReg8],
    langs := [langRow7], events := [], welcomeShown := [] }

/-! ## Helper lemmas -/

theorem find?_updateFirst {α : Type} {p : α → Bool} {f : α → α}
    (hf : ∀ a, p a = true → p (f a) = true) :
    ∀ l : List α, (updateFirst p f l).find? p = (l.find? p).map f := by
  intro l
  induction l with
  | nil => rfl
  | cons x xs ih =>
    by_cases hx : p x = true
    · rw [updateFirst, if_pos hx, List.find?_cons_of_pos _ (hf x hx),
        List.find?_cons_of_pos _ hx]
      rfl
    · rw [updateFirst, if_neg hx, List.find?_cons_of_neg _ hx,
        List.find?_cons_of_neg _ hx, ih]

theorem countP_updateFirst {α : Type} {p q : α → Bool} {f : α → α}
    (hf : ∀ a, p a = true → q (f a) = q a) :
    ∀ l : List α, (updateFirst p f l).countP q = l.countP q := by
  intro l
  induction l with
  | nil => rfl
  | cons x xs ih =>
    by_cases hx : p x = true
    · rw [updateFirst, if_pos hx, List.countP_cons, List.countP_cons, hf x hx]
    · rw [updateFirst, if_neg hx, List.countP_cons, List.countP_cons, ih]

theorem find?_append_of_none {α : Type} {p : α → Bool} {l₁ l₂ : List α}
    (h : l₁.find? p = none) : (l₁ ++ l₂).find? p = l₂.find? p := by
  rw [List.find?_append, h, Option.none_or]

theorem reconcileAccessRow_tenant_id (uid : Int) (un : Option String)
    (ua : UserAccess) : (reconcileAccessRow uid un ua).tenant_id = ua.tenant_id := by
  unfold reconcileAccessRow
  dsimp only
  split <;> split <;> rfl

theorem reconcileAccessRow_user_id (uid : Int) (un : Option String)
    (ua : UserAccess) : (reconcileAccessRow uid un ua).user_id = ua.user_id := by
  unfold reconcileAccessRow
  dsimp only
  split <;> split <;> rfl

theorem reconcileAccessRow_is_registered (uid : Int) (un : Option String)
    (ua : UserAccess) :
    (reconcileAccessRow uid un ua).is_registered = ua.is_registered := by
  unfold reconcileAccessRow
  dsimp only
  split <;> split <;> rfl

theorem reconcileAccessRow_has_deposit (uid : Int) (un : Option String)
    (ua : UserAccess) :
    (reconcileAccessRow uid un ua).has_deposit = ua.has_deposit := by
  unfold reconcileAccessRow
  dsimp only
  split <;> split <;> rfl

theorem reconcileAccessRow_click_id (uid : Int) (un : Option String)
    (ua : UserAccess) :
    (reconcileAccessRow uid un ua).click_id =
      some (ua.click_id.getD (toString uid)) := by
  unfold reconcileAccessRow
  dsimp only
  split <;> rcases hc : ua.click_id with _ | c <;> simp [hc]

theorem accessMatches_reconcile (tid : Nat) (uid : Int) (un : Option String)
    (a : UserAccess) (h : accessMatches tid uid a = true) :
    accessMatches tid uid (reconcileAccessRow uid un a) = true := by
  unfold accessMatches at h ⊢
  rw [reconcileAccessRow_tenant_id, reconcileAccessRow_user_id]
  exact h

theorem getOrCreateAccess_frame (s : Store) (tid : Nat) (uid : Int)
    (un : Option String) :
    ((getOrCreateAccess s tid uid un).2).events = s.events ∧
    ((getOrCreateAccess s tid uid un).2).tenants = s.tenants ∧
    ((getOrCreateAccess s tid uid un).2).langs = s.langs ∧
    ((getOrCreateAccess s tid uid un).2).welcomeShown = s.welcomeShown := by
  unfold getOrCreateAccess
  dsimp only
  split <;> exact ⟨rfl, rfl, rfl, rfl⟩

theorem getOrCreateAccess_find? (s : Store) (tid : Nat) (uid : Int)
    (un : Option String) :
    findAccess (getOrCreateAccess s tid uid un).2 tid uid =
      some (getOrCreateAccess s tid uid un).1 := by
  unfold getOrCreateAccess
  rcases h : findAccess s tid uid with _ | ua <;> dsimp only
  · unfold findAccess at h ⊢
    dsimp only
    rw [find?_append_of_none h, List.find?_cons_of_pos]
    simp [accessMatches]
  · unfold findAccess at h ⊢
    dsimp only
    rw [find?_updateFirst (accessMatches_reconcile tid uid (filterBotUsername un)), h]
    rfl

theorem getOrCreateAccess_reg (s : Store) (tid : Nat) (uid : Int)
    (un : Option String) :
    ((getOrCreateAccess s tid uid un).1.is_registered || hasRegEvent s tid uid) =
      effRegistered s tid uid := by
  unfold getOrCreateAccess effRegistered
  rcases h : findAccess s tid uid with _ | ua <;> dsimp only
  rw [reconcileAccessRow_is_registered]

theorem getOrCreateAccess_dep (s : Store) (tid : Nat) (uid : Int)
    (un : Option String) :
    ((getOrCreateAccess s tid uid un).1.has_deposit || hasDepEvent s tid uid) =
      effDeposited s tid uid := by
  unfold getOrCreateAccess effDeposited
  rcases h : findAccess s tid uid with _ | ua <;> dsimp only
  rw [reconcileAccessRow_has_deposit]

theorem getOrCreateAccess_click (s : Store) (tid : Nat) (uid : Int)
    (un : Option String) :
    (getOrCreateAccess s tid uid un).1.click_id =
      some ((match findAccess s tid uid with
             | some ua => ua.click_id
             | none => none).getD (toString uid)) := by
  unfold getOrCreateAccess
  rcases h : findAccess s tid uid with _ | ua <;> dsimp only
  · rfl
  · rw [reconcileAccessRow_click_id]

theorem getOrCreateAccess_countP (s : Store) (tid : Nat) (uid : Int)
    (un : Option String)
    (h : s.accesses.countP (accessMatches tid uid) ≤ 1) :
    ((getOrCreateAccess s tid uid un).2).accesses.countP (accessMatches tid uid)
      = 1 := by
  unfold getOrCreateAccess
  rcases hf : findAccess s tid uid with _ | ua <;> dsimp only
  · have h0 : s.accesses.countP (accessMatches tid uid) = 0 := by
      rw [List.countP_eq_zero]
      intro x hx
      exact List.find?_eq_none.mp hf x hx
    rw [List.countP_append, h0, List.countP_cons]
    simp [accessMatches]
  · rw [countP_updateFirst
      (fun a ha => by
        rw [accessMatches_reconcile tid uid (filterBotUsername un) a ha, ha])]
    have hmem := List.mem_of_find?_eq_some hf
    have hp := List.find?_some hf
    have hpos : 0 < s.accesses.countP (accessMatches tid uid) :=
      List.countP_pos_iff.mpr ⟨ua, hmem, hp⟩
    omega

theorem hasRegEvent_congr {s s' : Store} (h : s'.events = s.events)
    (tid : Nat) (uid : Int) : hasRegEvent s' tid uid = hasRegEvent s tid uid := by
  unfold hasRegEvent
  rw [h]

theorem hasDepEvent_congr {s s' : Store} (h : s'.events = s.events)
    (tid : Nat) (uid : Int) : hasDepEvent s' tid uid = hasDepEvent s tid uid := by
  unfold hasDepEvent
  rw [h]

/-- Core behaviour of `_get_effective_access` over any store: the returned
flags are the effective flags (stored OR event-derived), the pair's stored
row afterwards carries exactly the effective flags, and nothing else in the
store changes. -/
theorem getEffectiveAccess_spec (s : Store) (tid : Nat) (uid : Int)
    (un : Option String) :
    (getEffectiveAccess s tid uid un).1.2.1 = effRegistered s tid uid ∧
    (getEffectiveAccess s tid uid un).1.2.2 = effDeposited s tid uid ∧
    (findAccess (getEffectiveAccess s tid uid un).2 tid uid).map
        UserAccess.is_registered = some (effRegistered s tid uid) ∧
    (findAccess (getEffectiveAccess s tid uid un).2 tid uid).map
        UserAccess.has_deposit = some (effDeposited s tid uid) ∧
    (getEffectiveAccess s tid uid un).2.events = s.events ∧
    (getEffectiveAccess s tid uid un).2.welcomeShown = s.welcomeShown ∧
    (getEffectiveAccess s tid uid un).2.tenants = s.tenants ∧
    (getEffectiveAccess s tid uid un).2.langs = s.langs := by
  obtain ⟨hev, hten, hlang, hwel⟩ := getOrCreateAccess_frame s tid uid un
  have hreg : ((getOrCreateAccess s tid uid un).1.is_registered ||
      hasRegEvent (getOrCreateAccess s tid uid un).2 tid uid) =
        effRegistered s tid uid := by
    rw [hasRegEvent_congr hev]
    exact getOrCreateAccess_reg s tid uid un
  have hdep : ((getOrCreateAccess s tid uid un).1.has_deposit ||
      hasDepEvent (getOrCreateAccess s tid uid un).2 tid uid) =
        effDeposited s tid uid := by
    rw [hasDepEvent_congr hev]
    exact getOrCreateAccess_dep s tid uid un
  have hfind := getOrCreateAccess_find? s tid uid un
  unfold getEffectiveAccess getAccessFlagsFromEvents
  dsimp only
  have hupd : findAccess
      { (getOrCreateAccess s tid uid un).2 with
        accesses := updateFirst (accessMatches tid uid)
          (fun r =>
            { r with
              is_registered := (getOrCreateAccess s tid uid un).1.is_registered ||
                hasRegEvent (getOrCreateAccess s tid uid un).2 tid uid,
              has_deposit := (getOrCreateAccess s tid uid un).1.has_deposit ||
                hasDepEvent (getOrCreateAccess s tid uid un).2 tid uid })
          ((getOrCreateAccess s tid uid un).2).accesses } tid uid
      = some
        { (getOrCreateAccess s tid uid un).1 with
          is_registered := (getOrCreateAccess s tid uid un).1.is_registered ||
            hasRegEvent (getOrCreateAccess s tid uid un).2 tid uid,
          has_deposit := (getOrCreateAccess s tid uid un).1.has_deposit ||
            hasDepEvent (getOrCreateAccess s tid uid un).2 tid uid } := by
    unfold findAccess
    dsimp only
    rw [find?_updateFirst (p := accessMatches tid uid) (f := fun r : UserAccess =>
        { r with
          is_registered := (getOrCreateAccess s tid uid un).1.is_registered ||
            hasRegEvent (getOrCreateAccess s tid uid un).2 tid uid,
          has_deposit := (getOrCreateAccess s tid uid un).1.has_deposit ||
            hasDepEvent (getOrCreateAccess s tid uid un).2 tid uid })
      (fun a ha => ha)]
    unfold findAccess at hfind
    rw [hfind]
    rfl
  refine ⟨hreg, hdep, ?_, ?_, ?_⟩
  · split
    · rw [hupd]
      exact congrArg some hreg
    · rename_i hcond
      push_neg at hcond
      rw [hfind]
      exact congrArg some (hcond.1 ▸ hreg)
  · split
    · rw [hupd]
      exact congrArg some hdep
    · rename_i hcond
      push_neg at hcond
      rw [hfind]
      exact congrArg some (hcond.2 ▸ hdep)
  · split <;> exact ⟨hev, hwel, hten, hlang⟩

theorem adminToggleUserFlag_events (s : Store) (tid : Nat) (uid : Int)
    (flag : String) : ((adminToggleUserFlag s tid uid flag).2).events = s.events := by
  unfold adminToggleUserFlag
  rcases findAccess s tid uid with _ | ua <;> dsimp only
  split
  · rfl
  · split <;> rfl

theorem clickResolve_frame (s : Store) (t : Tenant) (cid : String)
    (trid : Option String) :
    ((getOrCreateUserAccessForClick s t cid trid).2).events = s.events ∧
    ((getOrCreateUserAccessForClick s t cid trid).2).tenants = s.tenants ∧
    ((getOrCreateUserAccessForClick s t cid trid).2).langs = s.langs ∧
    ((getOrCreateUserAccessForClick s t cid trid).2).welcomeShown
      = s.welcomeShown := by
  unfold getOrCreateUserAccessForClick
  dsimp only
  repeat' split
  all_goals exact ⟨rfl, rfl, rfl, rfl⟩

theorem clickResolve_none (s : Store) (t : Tenant) (cid : String)
    (trid : Option String) :
    (getOrCreateUserAccessForClick s t cid trid).1 = none →
    (getOrCreateUserAccessForClick s t cid trid).2 = s := by
  unfold getOrCreateUserAccessForClick
  dsimp only
  split
  · intro h
    exact absurd h (by simp)
  · split
    · intro h
      exact absurd h (by simp)
    · split
      · intro h
        exact absurd h (by simp)
      · intro _
        rfl

theorem handleSignalFlow_subscribe_halt (s : Store) (tid : Nat) (uid : Int)
    (un : Option String) (lookup : MembershipLookup) (tenant : Tenant)
    (ht : findTenant s tid = some tenant)
    (hcs : tenant.check_subscription = true)
    (hns : checkSubscription tenant lookup = false) :
    (handleSignalFlow s tid uid un lookup).1 = [Screen.subscribe] := by
  unfold handleSignalFlow
  rw [ht]
  dsimp only
  rw [if_pos (by rw [hcs, hns]; rfl)]

theorem handleSignalFlow_events (s : Store) (tid : Nat) (uid : Int)
    (un : Option String) (lookup : MembershipLookup) :
    ((handleSignalFlow s tid uid un lookup).2).events = s.events := by
  obtain ⟨-, -, -, -, h5, -, -, -⟩ := getEffectiveAccess_spec s tid uid un
  unfold handleSignalFlow
  rcases findTenant s tid with _ | tenant <;> dsimp only
  split_ifs <;> exact h5

/-! ## Claims -/

/-- C1: `_get_effective_access` returns, for each flag, the boolean OR of
the stored `UserAccess` flag and the presence of a `reg` (resp. `ftd`/`rd`)
event for the (tenant, user) pair; the stored flags are rewritten to the
computed values, so once such an event exists every read returns `true` and
the stored flag is `true` after at most one subsequent read (the event log
itself is untouched). -/
theorem effective_access_or_of_events (s : Store) (tid : Nat) (uid : Int)
    (un : Option String) (ua0 : UserAccess)
    (h : findAccess s tid uid = some ua0) :
    (getEffectiveAccess s tid uid un).1.2.1
        = (ua0.is_registered || hasRegEvent s tid uid) ∧
    (getEffectiveAccess s tid uid un).1.2.2
        = (ua0.has_deposit || hasDepEvent s tid uid) ∧
    (findAccess (getEffectiveAccess s tid uid un).2 tid uid).map
        UserAccess.is_registered
      = some (ua0.is_registered || hasRegEvent s tid uid) ∧
    (findAccess (getEffectiveAccess s tid uid un).2 tid uid).map
        UserAccess.has_deposit
      = some (ua0.has_deposit || hasDepEvent s tid uid) ∧
    (getEffectiveAccess s tid uid un).2.events = s.events ∧
    (hasRegEvent s tid uid = true →
      (getEffectiveAccess s tid uid un).1.2.1 = true) ∧
    (hasDepEvent s tid uid = true →
      (getEffectiveAccess s tid uid un).1.2.2 = true) := by
  obtain ⟨h1, h2, h3, h4, h5, -, -, -⟩ := getEffectiveAccess_spec s tid uid un
  have he : effRegistered s tid uid = (ua0.is_registered || hasRegEvent s tid uid) := by
    unfold effRegistered
    rw [h]
  have hd : effDeposited s tid uid = (ua0.has_deposit || hasDepEvent s tid uid) := by
    unfold effDeposited
    rw [h]
  rw [he] at h1 h3
  rw [hd] at h2 h4
  refine ⟨h1, h2, h3, h4, h5, ?_, ?_⟩
  · intro hr
    rw [h1, hr, Bool.or_true]
  · intro hr
    rw [h2, hr, Bool.or_true]

/-- C1 witness: in `storeRegEvent` (stored flag false, one `reg` event) the
effective read returns registered = true and rewrites the stored flag to
true. -/
theorem effective_access_or_of_events_witness :
    (getEffectiveAccess storeRegEvent 1 7 none).1.2.1 = true ∧
    (findAccess (getEffectiveAccess storeRegEvent 1 7 none).2 1 7).map
        UserAccess.is_registered = some true := by
  have h := effective_access_or_of_events storeRegEvent 1 7 none rowFresh (by decide)
  refine ⟨?_, ?_⟩
  · rw [h.1]
    decide
  · rw [h.2.2.1]
    decide

/-- C9: `_get_or_create_access` is an idempotent upsert: under the database
uniqueness bound there is exactly one row for the pair after a call;
`click_id` defaults to the stringified user id on first creation and an
already-set `click_id` is never replaced; the `IntegrityError` recovery
path returns the already-existing row (reconciled) without adding a second
row. -/
theorem get_or_create_access_idempotent (s sDb : Store) (tid : Nat) (uid : Int)
    (un : Option String) (ua0 : UserAccess) (c : String)
    (hcount : s.accesses.countP (accessMatches tid uid) ≤ 1) :
    ((getOrCreateAccess s tid uid un).2).accesses.countP (accessMatches tid uid)
        = 1 ∧
    (findAccess s tid uid = none →
      (getOrCreateAccess s tid uid un).1.click_id = some (toString uid)) ∧
    (findAccess s tid uid = some ua0 → ua0.click_id = some c →
      (getOrCreateAccess s tid uid un).1.click_id = some c) ∧
    (findAccess sDb tid uid = some ua0 →
      getOrCreateAccessConflict sDb tid uid un =
        some (reconcileAccessRow uid (filterBotUsername un) ua0,
          { sDb with
            accesses := updateFirst (accessMatches tid uid)
                (reconcileAccessRow uid (filterBotUsername un)) sDb.accesses }) ∧
      (updateFirst (accessMatches tid uid)
          (reconcileAccessRow uid (filterBotUsername un)) sDb.accesses).countP
          (accessMatches tid uid)
        = sDb.accesses.countP (accessMatches tid uid)) := by
  refine ⟨getOrCreateAccess_countP s tid uid un hcount, ?_, ?_, ?_⟩
  · intro h
    have := getOrCreateAccess_click s tid uid un
    rw [h] at this
    exact this
  · intro h hc
    have := getOrCreateAccess_click s tid uid un
    rw [h] at this
    dsimp only at this
    rw [hc] at this
    exact this
  · intro h
    constructor
    · unfold getOrCreateAccessConflict
      rw [h]
    · exact countP_updateFirst
        (fun a ha => by
          rw [accessMatches_reconcile tid uid (filterBotUsername un) a ha, ha])
        sDb.accesses

/-- C9 witness: creating the row for user 7 in the empty-ledger store yields
one row with `click_id = "7"`, and a conflicting insert against
`storeFresh` converges on the existing row. -/
theorem get_or_create_access_idempotent_witness :
    ((getOrCreateAccess storeGate 1 7 none).2).accesses.countP
        (accessMatches 1 7) = 1 ∧
    (getOrCreateAccess storeGate 1 7 none).1.click_id = some "7" := by
  have h := get_or_create_access_idempotent storeGate storeFresh 1 7 none rowFresh
    "7" (by decide)
  refine ⟨h.1, ?_⟩
  have := h.2.1 (by decide)
  rw [this]
  rfl

/-- C10: while a `reg` (resp. `ftd`/`rd`) event exists for the pair, an
operator toggle of the stored flag is not durable: the next effective-access
computation returns `true` and writes the stored flag back to `true`. -/
theorem manual_toggle_not_durable (s : Store) (tid : Nat) (uid : Int)
    (un : Option String) (ua0 : UserAccess)
    (h : findAccess s tid uid = some ua0) :
    (hasRegEvent s tid uid = true →
      (getEffectiveAccess (adminToggleUserFlag s tid uid "reg").2
          tid uid un).1.2.1 = true ∧
      (findAccess (getEffectiveAccess (adminToggleUserFlag s tid uid "reg").2
          tid uid un).2 tid uid).map UserAccess.is_registered = some true) ∧
    (hasDepEvent s tid uid = true →
      (getEffectiveAccess (adminToggleUserFlag s tid uid "dep").2
          tid uid un).1.2.2 = true ∧
      (findAccess (getEffectiveAccess (adminToggleUserFlag s tid uid "dep").2
          tid uid un).2 tid uid).map UserAccess.has_deposit = some true) := by
  constructor
  · intro hr
    obtain ⟨h1, -, h3, -, -, -, -, -⟩ :=
      getEffectiveAccess_spec (adminToggleUserFlag s tid uid "reg").2 tid uid un
    have hev : hasRegEvent (adminToggleUserFlag s tid uid "reg").2 tid uid = true := by
      rw [hasRegEvent_congr (adminToggleUserFlag_events s tid uid "reg") tid uid]
      exact hr
    have heff : effRegistered (adminToggleUserFlag s tid uid "reg").2 tid uid = true := by
      unfold effRegistered
      rw [hev, Bool.or_true]
    rw [heff] at h1 h3
    exact ⟨h1, h3⟩
  · intro hr
    obtain ⟨-, h2, -, h4, -, -, -, -⟩ :=
      getEffectiveAccess_spec (adminToggleUserFlag s tid uid "dep").2 tid uid un
    have hev : hasDepEvent (adminToggleUserFlag s tid uid "dep").2 tid uid = true := by
      rw [hasDepEvent_congr (adminToggleUserFlag_events s tid uid "dep") tid uid]
      exact hr
    have heff : effDeposited (adminToggleUserFlag s tid uid "dep").2 tid uid = true := by
      unfold effDeposited
      rw [hev, Bool.or_true]
    rw [heff] at h2 h4
    exact ⟨h2, h4⟩

/-- C10 witness: in `storeFull` (both events present), after toggling
registration off, the next effective read reports and re-stores
registered = true. -/
theorem manual_toggle_not_durable_witness :
    (getEffectiveAccess (adminToggleUserFlag storeFull 1 7 "reg").2
        1 7 none).1.2.1 = true := by
  exact ((manual_toggle_not_durable storeFull 1 7 none rowFull (by decide)).1
    (by decide)).1

/-- C2: one run of `_handle_signal_flow` sends at most one screen; the
deposit screen is only sent to an effectively registered user; with
subscription checking enabled and the gate not passed the run halts at the
subscribe screen (so registration is never shown there); when every gate
passes, the one-time access screen is sent exactly when the (tenant, user)
marker is absent, after which the marker is set and later all-gates-passing
runs send nothing and leave the marker set unchanged. -/
theorem signal_flow_funnel_order (s : Store) (tid : Nat) (uid : Int)
    (un : Option String) (lookup : MembershipLookup) (tenant : Tenant)
    (ht : findTenant s tid = some tenant) :
    (handleSignalFlow s tid uid un lookup).1.length ≤ 1 ∧
    (Screen.deposit ∈ (handleSignalFlow s tid uid un lookup).1 →
      effRegistered s tid uid = true) ∧
    (tenant.check_subscription = true → checkSubscription tenant lookup = false →
      (handleSignalFlow s tid uid un lookup).1 = [Screen.subscribe]) ∧
    ((tenant.check_subscription = true → checkSubscription tenant lookup = true) →
     effRegistered s tid uid = true →
     (tenant.check_deposit = true → effDeposited s tid uid = true) →
      (((tid, uid) ∉ s.welcomeShown →
          (handleSignalFlow s tid uid un lookup).1 = [Screen.accessOpen] ∧
          (tid, uid) ∈ (handleSignalFlow s tid uid un lookup).2.welcomeShown) ∧
       ((tid, uid) ∈ s.welcomeShown →
          (handleSignalFlow s tid uid un lookup).1 = [] ∧
          (handleSignalFlow s tid uid un lookup).2.welcomeShown
            = s.welcomeShown))) := by
  obtain ⟨h1, h2, -, -, -, h6, -, -⟩ := getEffectiveAccess_spec s tid uid un
  unfold handleSignalFlow
  rw [ht]
  dsimp only
  simp only [h1, h2, h6]
  split_ifs with hA hB hC hD
  · refine ⟨by simp, by simp, fun _ _ => rfl, fun g1 g2 g3 => ?_⟩
    rw [Bool.and_eq_true, Bool.not_eq_true'] at hA
    rw [g1 hA.1] at hA
    exact absurd hA.2 (by simp)
  · refine ⟨by simp, by simp, ?_, fun g1 g2 g3 => ?_⟩
    · intro hcs hns
      exact absurd (by rw [hcs, hns]; rfl) hA
    · rw [Bool.not_eq_true'] at hB
      rw [g2] at hB
      exact absurd hB (by simp)
  · refine ⟨by simp, ?_, ?_, fun g1 g2 g3 => ?_⟩
    · intro _
      simpa using hB
    · intro hcs hns
      exact absurd (by rw [hcs, hns]; rfl) hA
    · rw [Bool.and_eq_true, Bool.not_eq_true'] at hC
      rw [g3 hC.1] at hC
      exact absurd hC.2 (by simp)
  · refine ⟨by simp, by simp, ?_, fun g1 g2 g3 => ?_⟩
    · intro hcs hns
      exact absurd (by rw [hcs, hns]; rfl) hA
    · refine ⟨fun hn => absurd hD hn, fun _ => ⟨rfl, ?_⟩⟩
      dsimp only
      exact h6
  · refine ⟨by simp, by simp, ?_, fun g1 g2 g3 => ?_⟩
    · intro hcs hns
      exact absurd (by rw [hcs, hns]; rfl) hA
    · refine ⟨fun _ => ⟨rfl, ?_⟩, fun hmem => absurd hmem hD⟩
      dsimp only
      exact List.mem_cons_self _ _

/-- C2 witness: in `storeFull` with a passing membership lookup every gate
passes and the first run sends the one-time access screen. -/
theorem signal_flow_funnel_order_witness :
    (handleSignalFlow storeFull 1 7 none (.ok "member")).1
      = [Screen.accessOpen] := by
  have h := signal_flow_funnel_order storeFull 1 7 none (.ok "member") tenantA
    (by decide)
  exact ((h.2.2.2 (fun _ => by decide) (by decide) (fun _ => by decide)).1
    (by decide)).1

/-- C3 counterexample: the claim says a failing membership lookup is treated
as allowed (fail open); but with subscription checking enabled and a gating
channel configured, `_check_subscription` returns `False` on an exception
and the run halts at the subscribe screen. -/
theorem subscription_fail_open_counterexample :
    checkSubscription tenantGate MembershipLookup.err = false ∧
    (handleSignalFlow storeGate 1 7 none MembershipLookup.err).1
      = [Screen.subscribe] := by
  constructor
  · decide
  · rfl

/-- C3 (amended): the subscription gate fails closed on a lookup exception —
`_check_subscription` yields `False` whenever checking is enabled and a
(truthy) gating channel is configured, and the advance flow then halts at
the subscribe screen; only disabled checking or an unset gating channel is
treated as allowed. -/
theorem subscription_fail_closed (s : Store) (tid : Nat) (uid : Int)
    (un : Option String) (tenant : Tenant)
    (ht : findTenant s tid = some tenant) :
    (tenant.check_subscription = true → intFalsy tenant.gate_channel_id = false →
      checkSubscription tenant MembershipLookup.err = false ∧
      (handleSignalFlow s tid uid un MembershipLookup.err).1
        = [Screen.subscribe]) ∧
    (tenant.check_subscription = false →
      checkSubscription tenant MembershipLookup.err = true) ∧
    (intFalsy tenant.gate_channel_id = true →
      checkSubscription tenant MembershipLookup.err = true) := by
  refine ⟨?_, ?_, ?_⟩
  · intro hcs hch
    have hfail : checkSubscription tenant MembershipLookup.err = false := by
      unfold checkSubscription
      rw [hcs, hch]
      rfl
    refine ⟨hfail, ?_⟩
    exact handleSignalFlow_subscribe_halt s tid uid un MembershipLookup.err
      tenant ht hcs hfail
  · intro hcs
    unfold checkSubscription
    rw [hcs]
    rfl
  · intro hch
    unfold checkSubscription
    rw [hch]
    split
    · rfl
    · rfl

/-- C3 witness: for the gating tenant the lookup exception denies and the
flow halts at the subscribe screen. -/
theorem subscription_fail_closed_witness :
    (handleSignalFlow storeGate 1 7 none MembershipLookup.err).1
      = [Screen.subscribe] := by
  exact ((subscription_fail_closed storeGate 1 7 none tenantGate (by decide)).1
    (by decide) (by decide)).2

/-- C4 counterexample: a repeat-deposit conversion does not set
`has_deposit` — `postback_rd` only refreshes ids and adds to
`total_deposits`, so after an `rd` postback for a user whose flag was false
the stored flag is still false (the claim says it becomes true). -/
theorem postback_rd_flag_counterexample :
    (findAccess (postbackRd storeFresh "sek" "7" "tr" 50).2 1 7).map
        UserAccess.has_deposit = some false ∧
    (findAccess (postbackRd storeFresh "sek" "7" "tr" 50).2 1 7).map
        UserAccess.total_deposits = some 50 := by
  constructor
  · rfl
  · rfl

/-- C4 (amended): a registration conversion sets `is_registered`; a
first-deposit conversion sets `has_deposit`; a repeat-deposit conversion
leaves `has_deposit` unchanged (it is not set to true by the handler); both
deposit kinds add the conversion amount to `total_deposits`. -/
theorem postback_flag_updates (s : Store) (code cid trid : String) (amt : Nat)
    (t : Tenant) (ua r : UserAccess)
    (ht : getTenantByCode s code = some t)
    (hua : (getOrCreateUserAccessForClick s t cid (some trid)).1 = some ua)
    (hr : findAccess (getOrCreateUserAccessForClick s t cid (some trid)).2
        t.id ua.user_id = some r) :
    (findAccess (postbackReg s code cid trid).2 t.id ua.user_id).map
        UserAccess.is_registered = some true ∧
    (findAccess (postbackFtd s code cid trid amt).2 t.id ua.user_id).map
        UserAccess.has_deposit = some true ∧
    (findAccess (postbackFtd s code cid trid amt).2 t.id ua.user_id).map
        UserAccess.total_deposits = some (r.total_deposits + amt) ∧
    (findAccess (postbackRd s code cid trid amt).2 t.id ua.user_id).map
        UserAccess.has_deposit = some r.has_deposit ∧
    (findAccess (postbackRd s code cid trid amt).2 t.id ua.user_id).map
        UserAccess.total_deposits = some (r.total_deposits + amt) := by
  unfold findAccess at hr
  refine ⟨?_, ?_, ?_, ?_, ?_⟩
  all_goals
    first
      | (unfold postbackReg
         rw [ht]
         dsimp only
         rw [hua]
         dsimp only
         unfold findAccess
         dsimp only
         rw [find?_updateFirst (p := accessMatches t.id ua.user_id)
           (f := fun r : UserAccess =>
             { r with is_registered := true, trader_id := some trid,
                      click_id := some cid }) (fun a ha => ha), hr]
         rfl)
      | (unfold postbackFtd
         rw [ht]
         dsimp only
         rw [hua]
         dsimp only
         unfold findAccess
         dsimp only
         rw [find?_updateFirst (p := accessMatches t.id ua.user_id)
           (f := fun r : UserAccess =>
             { r with has_deposit := true, trader_id := some trid,
                      click_id := some cid,
                      total_deposits := r.total_deposits + amt })
           (fun a ha => ha), hr]
         rfl)
      | (unfold postbackRd
         rw [ht]
         dsimp only
         rw [hua]
         dsimp only
         unfold findAccess
         dsimp only
         rw [find?_updateFirst (p := accessMatches t.id ua.user_id)
           (f := fun r : UserAccess =>
             { r with trader_id := some trid, click_id := some cid,
                      total_deposits := r.total_deposits + amt })
           (fun a ha => ha), hr]
         rfl)

/-- C4 witness: for the fresh store the postback handlers produce exactly
the amended flag behaviour on user 7. -/
theorem postback_flag_updates_witness :
    (findAccess (postbackReg storeFresh "sek" "7" "tr").2 1 7).map
        UserAccess.is_registered = some true ∧
    (findAccess (postbackFtd storeFresh "sek" "7" "tr" 50).2 1 7).map
        UserAccess.has_deposit = some true := by
  have h := postback_flag_updates storeFresh "sek" "7" "tr" 50 tenantA
    { rowFresh with click_id := some "7", trader_id := some "tr" }
    { rowFresh with click_id := some "7", trader_id := some "tr" }
    (by decide) (by decide) (by decide)
  exact ⟨h.1, h.2.1⟩

/-- C5 counterexample: a conversion notice whose tenant code resolves but
whose click_id resolves to no user appends NO event (the handler returns
before the insert), while the claim says exactly one Event row is appended
even in that case.  The boundary still reports success and the store is
untouched. -/
theorem postback_unresolved_counterexample :
    (postbackReg storeFresh "sek" "abc" "tr").1.okStatus = true ∧
    (postbackReg storeFresh "sek" "abc" "tr").2.events = [] ∧
    (postbackReg storeFresh "sek" "abc" "tr").2 = storeFresh := by
  refine ⟨rfl, rfl, rfl⟩

/-- C5 (amended): when the tenant code resolves, exactly one Event carrying
the notice's kind, click_id and amount is appended iff the click resolves to
a user; in the unresolved case no Event is appended, no `UserAccess` row is
created or mutated (the store is unchanged), and the boundary still reports
success. -/
theorem postback_event_append (s : Store) (code cid trid : String) (amt : Nat)
    (t : Tenant) (ht : getTenantByCode s code = some t) :
    ((getOrCreateUserAccessForClick s t cid (some trid)).1 = none →
      (postbackReg s code cid trid).2 = s ∧
      (postbackReg s code cid trid).1.okStatus = true ∧
      (postbackFtd s code cid trid amt).2 = s ∧
      (postbackFtd s code cid trid amt).1.okStatus = true) ∧
    (∀ ua, (getOrCreateUserAccessForClick s t cid (some trid)).1 = some ua →
      (postbackReg s code cid trid).2.events
        = s.events ++ [⟨t.id, some ua.user_id, cid, some trid, "reg", none⟩] ∧
      (postbackFtd s code cid trid amt).2.events
        = s.events ++ [⟨t.id, some ua.user_id, cid, some trid, "ftd", some amt⟩]) := by
  have hev := (clickResolve_frame s t cid (some trid)).1
  constructor
  · intro hnone
    have hs := clickResolve_none s t cid (some trid) hnone
    refine ⟨?_, ?_, ?_, ?_⟩
    · unfold postbackReg
      rw [ht]
      dsimp only
      rw [hnone]
      dsimp only
      exact hs
    · unfold postbackReg
      rw [ht]
      dsimp only
      rw [hnone]
    · unfold postbackFtd
      rw [ht]
      dsimp only
      rw [hnone]
      dsimp only
      exact hs
    · unfold postbackFtd
      rw [ht]
      dsimp only
      rw [hnone]
  · intro ua hua
    constructor
    · unfold postbackReg
      rw [ht]
      dsimp only
      rw [hua]
      dsimp only
      rw [hev]
    · unfold postbackFtd
      rw [ht]
      dsimp only
      rw [hua]
      dsimp only
      rw [hev]

/-- C5 witness: "abc" resolves to nothing in `storeFresh` (no row carries
that click_id), so both handlers leave the store unchanged and report ok;
"7" resolves, so `postback_reg` appends exactly the reg event. -/
theorem postback_event_append_witness :
    (postbackReg storeFresh "sek" "abc" "tr").2 = storeFresh ∧
    (postbackReg storeFresh "sek" "7" "tr").2.events
      = storeFresh.events ++ [⟨1, some 7, "7", some "tr", "reg", none⟩] := by
  have h := postback_event_append storeFresh "sek" "abc" "tr" 50 tenantA
    (by decide)
  have h2 := postback_event_append storeFresh "sek" "7" "tr" 50 tenantA
    (by decide)
  exact ⟨(h.1 (by decide)).1,
    (h2.2 { rowFresh with click_id := some "7", trader_id := some "tr" }
      (by decide)).1⟩

/-- C6: after a resolved registration conversion the handler reads
`getattr(tenant, "deposit_required", True)`; the `Tenant` model has no
`deposit_required` attribute, so the flag is always `True` and the
deposit-required screen is sent even when the tenant's `check_deposit` flag
is disabled — the access-granted branch is unreachable, contradicting the
claim (and the spec: "if deposit checking is disabled for the tenant, send
the access granted screen directly"). -/
theorem postback_reg_ignores_check_deposit :
    tenantNoDep.check_deposit = false ∧
    (postbackReg storeNoDep "sek" "7" "tr").1.sent = some Screen.deposit := by
  exact ⟨rfl, rfl⟩

/-- C7 counterexample: the operator's per-user delete removes the user's
Event rows — `_admin_delete_user_record` issues `delete(Event)` for the
pair — while the claim says only cascading tenant deletion ever removes
Event rows. -/
theorem admin_delete_removes_events_counterexample :
    storeRegEvent.events.length = 1 ∧
    (adminDeleteUserRecord storeRegEvent 1 7).events = [] := by
  exact ⟨rfl, rfl⟩

/-- C7 (amended): Event rows are append-only across the ledger operations
except for two deletion paths: cascading tenant deletion and the operator's
per-user delete, which removes exactly the pair's events.  Reads, toggles
and the funnel flow leave the event log unchanged; the postback handlers
only ever append. -/
theorem events_append_only (s : Store) (tid : Nat) (uid : Int)
    (un : Option String) (flag : String) (lookup : MembershipLookup)
    (code cid trid : String) (amt : Nat) :
    (adminDeleteUserRecord s tid uid).events
      = s.events.filter (fun e => !(e.tenant_id == tid && e.user_id == some uid)) ∧
    ((adminToggleUserFlag s tid uid flag).2).events = s.events ∧
    ((getOrCreateAccess s tid uid un).2).events = s.events ∧
    ((getEffectiveAccess s tid uid un).2).events = s.events ∧
    ((handleSignalFlow s tid uid un lookup).2).events = s.events ∧
    (∃ es, (postbackReg s code cid trid).2.events = s.events ++ es) ∧
    (∃ es, (postbackFtd s code cid trid amt).2.events = s.events ++ es) ∧
    (∃ es, (postbackRd s code cid trid amt).2.events = s.events ++ es) := by
  refine ⟨rfl, adminToggleUserFlag_events s tid uid flag,
    (getOrCreateAccess_frame s tid uid un).1,
    (getEffectiveAccess_spec s tid uid un).2.2.2.2.1,
    handleSignalFlow_events s tid uid un lookup, ?_, ?_, ?_⟩
  · unfold postbackReg
    rcases ht : getTenantByCode s code with _ | t <;> dsimp only
    · exact ⟨[], by rw [List.append_nil]⟩
    · rcases hua : (getOrCreateUserAccessForClick s t cid (some trid)).1
        with _ | ua <;> dsimp only
      · exact ⟨[], by
          rw [(clickResolve_frame s t cid (some trid)).1, List.append_nil]⟩
      · exact ⟨[⟨t.id, some ua.user_id, cid, some trid, "reg", none⟩], by
          rw [(clickResolve_frame s t cid (some trid)).1]⟩
  · unfold postbackFtd
    rcases ht : getTenantByCode s code with _ | t <;> dsimp only
    · exact ⟨[], by rw [List.append_nil]⟩
    · rcases hua : (getOrCreateUserAccessForClick s t cid (some trid)).1
        with _ | ua <;> dsimp only
      · exact ⟨[], by
          rw [(clickResolve_frame s t cid (some trid)).1, List.append_nil]⟩
      · exact ⟨[⟨t.id, some ua.user_id, cid, some trid, "ftd", some amt⟩], by
          rw [(clickResolve_frame s t cid (some trid)).1]⟩
  · unfold postbackRd
    rcases ht : getTenantByCode s code with _ | t <;> dsimp only
    · exact ⟨[], by rw [List.append_nil]⟩
    · rcases hua : (getOrCreateUserAccessForClick s t cid (some trid)).1
        with _ | ua <;> dsimp only
      · exact ⟨[], by
          rw [(clickResolve_frame s t cid (some trid)).1, List.append_nil]⟩
      · exact ⟨[⟨t.id, some ua.user_id, cid, some trid, "rd", some amt⟩], by
          rw [(clickResolve_frame s t cid (some trid)).1]⟩

/-- C8 counterexample: the "registered-only" broadcast segment filters on
the *stored* `is_registered` flag, not effective access: in
`storeRegEvent` user 7 is effectively registered (a `reg` event exists) yet
the segment is empty, while the claim says the segment is exactly the
effectively-registered users. -/
theorem broadcast_reg_segment_counterexample :
    effRegistered storeRegEvent 1 7 = true ∧
    adminCollectBroadcastTargets storeRegEvent 1 "reg" none = [] := by
  exact ⟨rfl, rfl⟩

/-- C8 (amended): the "registered-only" segment is exactly the tenant's
users whose *stored* `is_registered` flag is true (not effective access);
the by-language segment is exactly the tenant's users holding a language
row equal to the requested code; the "all" segment is exactly the tenant's
user ids, without duplicates under the database uniqueness constraint. -/
theorem broadcast_targets_exact (s : Store) (tid : Nat) (u : Int) (lc : String)
    (hlc : lc ≠ "") :
    (u ∈ adminCollectBroadcastTargets s tid "reg" none ↔
      ∃ ua, ua ∈ s.accesses ∧ ua.tenant_id = tid ∧ ua.user_id = u ∧
        ua.is_registered = true) ∧
    (u ∈ adminCollectBroadcastTargets s tid "all" none ↔
      ∃ ua, ua ∈ s.accesses ∧ ua.tenant_id = tid ∧ ua.user_id = u) ∧
    (u ∈ adminCollectBroadcastTargets s tid "lang" (some lc) ↔
      ∃ ua, ua ∈ s.accesses ∧ ua.tenant_id = tid ∧ ua.user_id = u ∧
        ∃ ul, ul ∈ s.langs ∧ ul.tenant_id = tid ∧ ul.user_id = u ∧
          ul.lang = lc) ∧
    (s.wf → (adminCollectBroadcastTargets s tid "all" none).Nodup) := by
  refine ⟨?_, ?_, ?_, ?_⟩
  · unfold adminCollectBroadcastTargets
    rw [if_neg (by decide), if_pos (by decide)]
    simp only [List.mem_map, List.mem_filter]
    constructor
    · rintro ⟨ua, ⟨hmem, hp⟩, hu⟩
      rw [Bool.and_eq_true, beq_iff_eq] at hp
      exact ⟨ua, hmem, hp.1, hu, hp.2⟩
    · rintro ⟨ua, hmem, h1, h2, h3⟩
      refine ⟨ua, ⟨hmem, ?_⟩, h2⟩
      rw [Bool.and_eq_true, beq_iff_eq]
      exact ⟨h1, h3⟩
  · unfold adminCollectBroadcastTargets
    rw [if_pos (by decide)]
    simp only [List.mem_map, List.mem_filter]
    constructor
    · rintro ⟨ua, ⟨hmem, hp⟩, hu⟩
      rw [beq_iff_eq] at hp
      exact ⟨ua, hmem, hp, hu⟩
    · rintro ⟨ua, hmem, h1, h2⟩
      refine ⟨ua, ⟨hmem, ?_⟩, h2⟩
      rw [beq_iff_eq]
      exact h1
  · unfold adminCollectBroadcastTargets
    rw [if_neg (by decide), if_neg (by decide), if_neg (by decide),
      if_pos (by simp [strTruthy, hlc])]
    simp only [List.mem_map, List.mem_filter]
    constructor
    · rintro ⟨ua, ⟨hmem, hp⟩, hu⟩
      rw [Bool.and_eq_true, beq_iff_eq] at hp
      obtain ⟨ht, hany⟩ := hp
      rw [List.any_eq_true] at hany
      obtain ⟨ul, hul, hcond⟩ := hany
      rw [Bool.and_eq_true, Bool.and_eq_true, beq_iff_eq, beq_iff_eq,
        beq_iff_eq] at hcond
      refine ⟨ua, hmem, ht, hu, ul, hul, ?_, ?_, ?_⟩
      · rw [hcond.1.1, ht]
      · rw [hcond.1.2, hu]
      · exact Option.some_inj.mp hcond.2
    · rintro ⟨ua, hmem, h1, h2, ul, hul, g1, g2, g3⟩
      refine ⟨ua, ⟨hmem, ?_⟩, h2⟩
      rw [Bool.and_eq_true, beq_iff_eq]
      refine ⟨h1, ?_⟩
      rw [List.any_eq_true]
      refine ⟨ul, hul, ?_⟩
      rw [Bool.and_eq_true, Bool.and_eq_true, beq_iff_eq, beq_iff_eq,
        beq_iff_eq]
      exact ⟨⟨by rw [g1, h1], by rw [g2, h2]⟩, by rw [g3]⟩
  · intro hwf
    unfold adminCollectBroadcastTargets
    rw [if_pos (by decide)]
    have hp2 : (s.accesses.filter (fun ua => ua.tenant_id == tid)).Pairwise
        (fun a b => a.user_id ≠ b.user_id) := by
      refine (hwf.1.filter (fun ua => ua.tenant_id == tid)).imp_of_mem ?_
      intro a b ha hb hne huv
      have hta : a.tenant_id = tid := by
        have := List.of_mem_filter ha
        rwa [beq_iff_eq] at this
      have htb : b.tenant_id = tid := by
        have := List.of_mem_filter hb
        rwa [beq_iff_eq] at this
      apply hne
      rw [Prod.mk.injEq]
      exact ⟨hta.trans htb.symm, huv⟩
    exact hp2.map _ (fun a b h => h)

/-- C8 witness: in `storeBroadcast` the registered segment contains exactly
user 8, the language segment "de" contains exactly user 7, and the "all"
segment is duplicate-free. -/
theorem broadcast_targets_exact_witness :
    (8 : Int) ∈ adminCollectBroadcastTargets storeBroadcast 1 "reg" none ∧
    (7 : Int) ∈ adminCollectBroadcastTargets storeBroadcast 1 "lang"
      (some "de") ∧
    (adminCollectBroadcastTargets storeBroadcast 1 "all" none).Nodup := by
  have h8 := broadcast_targets_exact storeBroadcast 1 8 "de" (by decide)
  have h7 := broadcast_targets_exact storeBroadcast 1 7 "de" (by decide)
  refine ⟨?_, ?_, h8.2.2.2 (by decide)⟩
  · exact h8.1.mpr ⟨rowReg8, by decide, rfl, rfl, rfl⟩
  · exact h7.2.2.1.mpr ⟨rowFresh, by decide, rfl, rfl, langRow7, by decide,
      rfl, rfl, rfl⟩

end PocketSaas
